import Mathlib

/-!
Verification development for a multi-tenant task-tracking backend.

The source is a Python/FastAPI service.  This file gives a shallow embedding
of its core components:

* the SQLAlchemy data model (`models/database.py`): rows `UserRow`, `TaskRow`
  and the database state `DB`;
* the service layer (`services/task_service.py`): `create_task`,
  `get_task_by_id`, `get_tasks_by_user`, `update_task`, `delete_task`,
  `toggle_task_completion`;
* the security utilities (`core/security.py`): JWT creation/verification and
  the password hashing pair;
* Python's `uuid.UUID` string constructor, used by the endpoints to parse
  path identifiers;
* the HTTP endpoint bodies (`api/v1/tasks.py`, `api/v1/auth.py`), modelled as
  pure functions from the authenticated token subject, path/query/body
  parameters and database state to a response together with the new state.

Machine-level conventions: UUID values are `Nat` (the 128-bit integer a
Python `uuid.UUID` wraps), timestamps are `Nat` seconds, and identifier
generation (`uuid.uuid4`) is modelled by passing the generated value as an
explicit argument, with freshness hypotheses where theorems need them.
-/

/-- Row of the `tasks` table (`models/database.py`, class `Task`).
`description` and `priority` are nullable columns; `title` is NOT NULL and
`completed` is populated as a concrete boolean on every path this model can
reach. -/
structure TaskRow where
  id : Nat
  user_id : Nat
  title : String
  description : Option String
  completed : Bool
  priority : Option String
  created_at : Nat
  updated_at : Nat
deriving Repr, DecidableEq

/-- Stored password hash.  Modelled from the spec: the source delegates to
passlib's `CryptContext(schemes=["pbkdf2_sha256"])`, an external library; the
spec describes it as a deterministic salted one-way derivation with
recompute-and-compare verification.  The PBKDF2 digest is modelled by an
injective stand-in — collision resistance of the vetted primitive becomes
exact injectivity, and one-wayness is outside the model. -/
structure PasswordHash where
  salt : Nat
  digest : String
deriving Repr, DecidableEq

/-- Modelled from the spec: the PBKDF2-class key derivation inside passlib
(not in `src/`); an injective stand-in for the digest computation. -/
def kdfDigest (salt : Nat) (password : String) : String :=
  toString salt ++ ":" ++ password

/-- Row of the `users` table (`models/database.py`, class `User`). -/
structure UserRow where
  id : Nat
  email : String
  name : Option String
  hashed_password : PasswordHash
  created_at : Nat
  updated_at : Nat
deriving Repr, DecidableEq

/-- The persistent state the SQLAlchemy session reads and writes. -/
structure DB where
  users : List UserRow
  tasks : List TaskRow
deriving Repr, DecidableEq

/-- Primary-key integrity of the `tasks` table: ids are pairwise distinct. -/
def DB.tasksIdNodup (db : DB) : Prop := (db.tasks.map (·.id)).Nodup

/-- Uniqueness constraint on `users.email` (`unique=True`). -/
def DB.emailsNodup (db : DB) : Prop := (db.users.map (·.email)).Nodup

/-- Request body of `POST /{user_id}/tasks` (`schemas/task.py`, `TaskCreate`).
Schema defaults (`completed=False`, `priority="medium"`, `tags=[]`) are
applied by pydantic before the endpoint body runs, so fields here hold the
post-validation values.  `priority = none` and `tags = none` are explicit
JSON nulls, which the `Optional` fields admit. -/
structure TaskCreate where
  title : String
  description : Option String
  completed : Bool
  priority : Option String
  tags : Option (List String)
deriving Repr, DecidableEq

/-- Request body of `PUT /{user_id}/tasks/{task_id}` (`schemas/task.py`,
`TaskUpdate`).  `some v` means the field was present in the request body with
value `v`; `none` means it was absent, which `dict(exclude_unset=True)`
drops.  Fields present with an explicit JSON null (which for the nullable
columns would store NULL and for `title` would violate its NOT NULL
constraint) are not modelled. -/
structure TaskUpdate where
  title : Option String
  description : Option String
  completed : Option Bool
  priority : Option String
  tags : Option (List String)
deriving Repr, DecidableEq

/-- `TaskService.get_task_by_id`: first row matching
`and_(Task.user_id == user_id, Task.id == task_id)`. -/
def get_task_by_id (db : DB) (user_id task_id : Nat) : Option TaskRow :=
  db.tasks.find? (fun t => t.user_id == user_id && t.id == task_id)

/-- `TaskService.create_task`: builds a `Task` from the validated body (the
`tags` field is not passed to the constructor), inserts and commits.  Column
defaults supply `created_at`/`updated_at`; `new_id` stands for the
`uuid.uuid4` column default. -/
def create_task (db : DB) (user_id : Nat) (task_data : TaskCreate)
    (new_id now : Nat) : TaskRow × DB :=
  let task : TaskRow :=
    { id := new_id
      user_id := user_id
      title := task_data.title
      description := task_data.description
      completed := task_data.completed
      priority := task_data.priority
      created_at := now
      updated_at := now }
  (task, { db with tasks := db.tasks ++ [task] })

/-- `TaskService.get_tasks_by_user`: owner filter, then the status filter
(guarded by Python truthiness, so `""` is skipped, and only the literal
strings `"completed"`/`"incomplete"` select a branch), then the priority
filter (same truthiness guard; SQL `=` against a NULL `priority` is not
satisfied, hence the comparison with `some priority`). -/
def get_tasks_by_user (db : DB) (user_id : Nat)
    (status priority : Option String) : List TaskRow :=
  let q := db.tasks.filter (fun t => t.user_id == user_id)
  let q := match status with
    | none => q
    | some s =>
        if s = "" then q
        else if s = "completed" then q.filter (fun t => t.completed)
        else if s = "incomplete" then q.filter (fun t => !t.completed)
        else q
  match priority with
  | none => q
  | some p => if p = "" then q else q.filter (fun t => t.priority == some p)

/-- The row `update_task` produces from `setattr` over
`task_data.dict(exclude_unset=True)`.  `tags` has no mapped column: the
`setattr` creates a transient Python attribute that is never persisted and
does not mark the session dirty, so it is dropped here. -/
def applyTaskUpdate (t : TaskRow) (u : TaskUpdate) : TaskRow :=
  { t with
    title := u.title.getD t.title
    description := match u.description with
      | some d => some d
      | none => t.description
    completed := u.completed.getD t.completed
    priority := match u.priority with
      | some p => some p
      | none => t.priority }

/-- Whether the flush after `update_task` issues an UPDATE statement: true
when some provided mapped field receives a value different from the stored
one.  (SQLAlchemy tracks attribute history; with no changed mapped
attribute, `commit` flushes nothing and the `onupdate` clock never fires.) -/
def taskUpdateDirty (t : TaskRow) (u : TaskUpdate) : Bool :=
  u.title.any (fun v => v != t.title)
  || u.description.any (fun v => some v != t.description)
  || u.completed.any (fun v => v != t.completed)
  || u.priority.any (fun v => some v != t.priority)

/-- `TaskService.update_task`: fetch via `get_task_by_id` (owner-scoped),
return `None` when absent; otherwise `setattr` the provided fields and
commit.  The `updated_at` column's `onupdate=func.now()` fires exactly when
an UPDATE statement is issued. -/
def update_task (db : DB) (user_id task_id : Nat) (task_data : TaskUpdate)
    (now : Nat) : Option TaskRow × DB :=
  match get_task_by_id db user_id task_id with
  | none => (none, db)
  | some t =>
      let t' := applyTaskUpdate t task_data
      let t' := if taskUpdateDirty t task_data
        then { t' with updated_at := now } else t'
      (some t',
        { db with tasks := db.tasks.map (fun x => if x.id == task_id then t' else x) })

/-- `TaskService.delete_task`: fetch via `get_task_by_id`, return `False`
when absent; otherwise DELETE the row (by primary key) and commit. -/
def delete_task (db : DB) (user_id task_id : Nat) : Bool × DB :=
  match get_task_by_id db user_id task_id with
  | none => (false, db)
  | some _ => (true, { db with tasks := db.tasks.filter (fun x => x.id != task_id) })

/-- `TaskService.toggle_task_completion`: fetch via `get_task_by_id`, return
`None` when absent; otherwise set `completed` and commit.  Assigning the
boolean already stored leaves the session clean (booleans are interned, so
the attribute history records no change) and no UPDATE is issued. -/
def toggle_task_completion (db : DB) (user_id task_id : Nat) (completed : Bool)
    (now : Nat) : Option TaskRow × DB :=
  match get_task_by_id db user_id task_id with
  | none => (none, db)
  | some t =>
      let t' := if completed != t.completed
        then { t with completed := completed, updated_at := now }
        else t
      (some t',
        { db with tasks := db.tasks.map (fun x => if x.id == task_id then t' else x) })

/-! ## Security utilities (`core/security.py`) -/

/-- The claim dictionary passed to `create_access_token`
(`{"sub": str(user.id), "email": user.email}` at the login call site). -/
structure AuthClaims where
  sub : String
  email : String
deriving Repr, DecidableEq

/-- Decoded JWT payload: the claims plus the `exp` timestamp (seconds). -/
structure JwtPayload where
  sub : String
  email : String
  exp : Nat
deriving Repr, DecidableEq

/-- Injective numeric code of a string, used by the HMAC model. -/
def strCode (s : String) : Nat :=
  s.data.foldl (fun a c => a * 1114112 + c.toNat + 1) 1

/-- HS256 signature over the payload with the process-wide symmetric secret
(`settings.BETTER_AUTH_SECRET`), modelled as a concrete keyed checksum. -/
def jwtSign (secret : String) (p : JwtPayload) : Nat :=
  strCode secret + 31 * strCode p.sub + 151 * strCode p.email + 313 * p.exp

/-- A wire token: either a structurally valid JWT carrying a payload and a
signature, or an undecodable string. -/
inductive JwtToken where
  | signed (payload : JwtPayload) (sig : Nat)
  | garbage (raw : String)
deriving Repr, DecidableEq

/-- `create_access_token`: copies the claims, adds
`exp = now + expires_delta` (default `timedelta(days=7)` when no delta is
given), and signs with the configured secret. -/
def create_access_token (data : AuthClaims) (expires_delta : Option Nat)
    (now : Nat) (secret : String) : JwtToken :=
  let expire := match expires_delta with
    | some d => now + d
    | none => now + 7 * 24 * 60 * 60
  .signed { sub := data.sub, email := data.email, exp := expire }
    (jwtSign secret { sub := data.sub, email := data.email, exp := expire })

/-- `verify_token`: `jwt.decode` checks the signature and the `exp` claim
(PyJWT treats `exp <= now` as expired); every failure — bad signature,
expiry, undecodable token — is caught as `PyJWTError` and mapped to the one
sentinel `None`. -/
def verify_token (token : JwtToken) (now : Nat) (secret : String) :
    Option JwtPayload :=
  match token with
  | .garbage _ => none
  | .signed p sig =>
      if sig = jwtSign secret p ∧ now < p.exp then some p else none

/-- `get_password_hash`: derive with a fresh salt (`pwd_context.hash`). -/
def get_password_hash (salt : Nat) (password : String) : PasswordHash :=
  { salt := salt, digest := kdfDigest salt password }

/-- `verify_password`: recompute the digest with the stored salt and compare
(`pwd_context.verify`). -/
def verify_password (plain : String) (hashed : PasswordHash) : Bool :=
  hashed.digest == kdfDigest hashed.salt plain

/-! ## Python's `uuid.UUID` string constructor

The endpoints parse every path identifier with `uuid.UUID(s)`, catching
`ValueError`/`TypeError`.  CPython normalises the string (drop every
`urn:`/`uuid:` substring, strip surrounding braces, drop every dash),
requires exactly 32 remaining characters, parses them with `int(hex, 16)`
(which itself strips surrounding whitespace and accepts a sign, an optional
`0x` prefix and single underscores between digits), and finally requires the
integer to lie in `[0, 2^128)`.  ASCII-level model: exotic Unicode digits
and whitespace accepted by CPython are not represented. -/

/-- Left-to-right non-overlapping removal of every occurrence of `pat`
(Python's `str.replace(pat, "")`), with an explicit fuel argument so the
recursion is structural.  Only called with nonempty patterns and fuel equal
to the input length, which one character per step cannot exhaust. -/
def removeSubstrAux (pat : List Char) : Nat → List Char → List Char
  | _, [] => []
  | 0, l => l
  | fuel + 1, c :: rest =>
      if pat.isPrefixOf (c :: rest) then
        removeSubstrAux pat fuel (rest.drop (pat.length - 1))
      else c :: removeSubstrAux pat fuel rest

/-- `s.replace(pat, "")` for a nonempty pattern. -/
def removeSubstr (pat : List Char) (l : List Char) : List Char :=
  removeSubstrAux pat l.length l

/-- ASCII whitespace stripped by `int(...)`. -/
def isPyWhitespace (c : Char) : Bool :=
  c == ' ' || c == '\t' || c == '\n' || c == '\r' || c == '\x0b' || c == '\x0c'

/-- Hexadecimal digit value. -/
def hexVal? (c : Char) : Option Nat :=
  if '0' ≤ c ∧ c ≤ '9' then some (c.toNat - 48)
  else if 'a' ≤ c ∧ c ≤ 'f' then some (c.toNat - 87)
  else if 'A' ≤ c ∧ c ≤ 'F' then some (c.toNat - 55)
  else none

/-- Continue a digit run: single underscores are permitted between digits,
never doubled or trailing. -/
def hexRun (acc : Nat) : List Char → Option Nat
  | [] => some acc
  | ['_'] => none
  | '_' :: '_' :: _ => none
  | '_' :: c :: rest =>
      match hexVal? c with
      | some v => hexRun (acc * 16 + v) rest
      | none => none
  | c :: rest =>
      match hexVal? c with
      | some v => hexRun (acc * 16 + v) rest
      | none => none

/-- `int(s, 16)` on a character list: returns the sign and magnitude. -/
def pyIntHex? (cs0 : List Char) : Option (Bool × Nat) :=
  let cs := ((cs0.dropWhile isPyWhitespace).reverse.dropWhile isPyWhitespace).reverse
  let signed : Bool × List Char := match cs with
    | '-' :: rest => (true, rest)
    | '+' :: rest => (false, rest)
    | _ => (false, cs)
  let neg := signed.1
  let prefixed : Bool × List Char := match signed.2 with
    | '0' :: 'x' :: rest => (true, rest)
    | '0' :: 'X' :: rest => (true, rest)
    | _ => (false, signed.2)
  let body := prefixed.2
  match body with
  | [] => none
  | '_' :: c :: rest =>
      if prefixed.1 then
        match hexVal? c with
        | some v => (hexRun v rest).map (fun n => (neg, n))
        | none => none
      else none
  | c :: rest =>
      match hexVal? c with
      | some v => (hexRun v rest).map (fun n => (neg, n))
      | none => none

/-- `uuid.UUID(s)`: `some` the 128-bit integer value on success, `none` when
the constructor raises. -/
def pyUUID? (s : String) : Option Nat :=
  let cs := removeSubstr "uuid:".toList (removeSubstr "urn:".toList s.toList)
  let cs := ((cs.dropWhile (fun c => c == '{' || c == '}')).reverse.dropWhile
    (fun c => c == '{' || c == '}')).reverse
  let cs := cs.filter (fun c => c ≠ '-')
  if cs.length = 32 then
    match pyIntHex? cs with
    | some (neg, v) => if neg ∧ v ≠ 0 then none else some v
    | none => none
  else none

/-! ## Endpoint bodies (`api/v1/tasks.py`, `api/v1/auth.py`)

Each endpoint is modelled after the Identity Gate (`JWTBearer`) has
succeeded: `token_sub` is the `"sub"` claim of the verified token.  The
response and the database state after the handler are returned as a pair;
an unchanged state together with a response that does not depend on the
state witnesses that no repository access occurred. -/

/-- Response-model serialization of a stored task (`schemas/task.py`, class
`Task` with `from_attributes`).  The ORM row has no `tags` attribute, so the
schema default `[]` is used. -/
structure TaskOut where
  title : String
  description : Option String
  completed : Bool
  priority : Option String
  tags : List String
  id : Nat
  user_id : Nat
  created_at : Nat
  updated_at : Nat
deriving Repr, DecidableEq

/-- Serialize a stored row; `tags` falls back to the schema default. -/
def taskToSchema (t : TaskRow) : TaskOut :=
  { title := t.title
    description := t.description
    completed := t.completed
    priority := t.priority
    tags := []
    id := t.id
    user_id := t.user_id
    created_at := t.created_at
    updated_at := t.updated_at }

/-- Response-model serialization of a user (`schemas/task.py`, class `User`):
`hashed_password` has no schema field and is excluded. -/
structure UserOut where
  email : String
  name : Option String
  id : Nat
  created_at : Nat
  updated_at : Nat
deriving Repr, DecidableEq

/-- Serialize a stored user row. -/
def userToSchema (u : UserRow) : UserOut :=
  { email := u.email, name := u.name, id := u.id,
    created_at := u.created_at, updated_at := u.updated_at }

/-- An HTTP-level outcome: one of the endpoint success bodies, or the
payload of a raised `HTTPException`. -/
inductive ApiResult where
  | tasksOk (data : List TaskOut)
  | taskOk (data : TaskOut)
  | msgOk (message : String)
  | userOk (data : UserOut)
  | httpError (statusCode : Nat) (detail : String)
deriving Repr, DecidableEq

/-- `GET /{user_id}/tasks` (`get_tasks`): authorization check against the
token subject first (plain string comparison), then `uuid.UUID(user_id)`,
then the owner-scoped list query. -/
def get_tasks_endpoint (token_sub user_id : String)
    (status priority : Option String) (db : DB) : ApiResult × DB :=
  if token_sub ≠ user_id then
    (.httpError 401 "Unauthorized access to these tasks", db)
  else
    match pyUUID? user_id with
    | none => (.httpError 400 "Invalid user ID format", db)
    | some user_uuid =>
        (.tasksOk ((get_tasks_by_user db user_uuid status priority).map taskToSchema), db)

/-- `POST /{user_id}/tasks` (`create_task` endpoint): authorization check,
then `uuid.UUID(user_id)`, then the insert.  The fresh row id and the clock
are passed explicitly. -/
def create_task_endpoint (token_sub user_id : String) (task_data : TaskCreate)
    (db : DB) (new_id now : Nat) : ApiResult × DB :=
  if token_sub ≠ user_id then
    (.httpError 401 "Unauthorized to create tasks for this user", db)
  else
    match pyUUID? user_id with
    | none => (.httpError 400 "Invalid user ID format", db)
    | some user_uuid =>
        let r := create_task db user_uuid task_data new_id now
        (.taskOk (taskToSchema r.1), r.2)

/-- `GET /{user_id}/tasks/{task_id}` (`get_task`): authorization check, then
`uuid.UUID` on both path ids inside one `try` (the user id is parsed first),
then the owner-scoped fetch; `None` becomes 404. -/
def get_task_endpoint (token_sub user_id task_id : String) (db : DB) :
    ApiResult × DB :=
  if token_sub ≠ user_id then
    (.httpError 401 "Unauthorized access to this task", db)
  else
    match pyUUID? user_id with
    | none => (.httpError 400 "Invalid user or task ID format", db)
    | some user_uuid =>
        match pyUUID? task_id with
        | none => (.httpError 400 "Invalid user or task ID format", db)
        | some task_uuid =>
            match get_task_by_id db user_uuid task_uuid with
            | none => (.httpError 404 "Task not found", db)
            | some t => (.taskOk (taskToSchema t), db)

/-- `PUT /{user_id}/tasks/{task_id}` (`update_task` endpoint).  On success
the handler returns the refreshed ORM object; a `tags` value provided in the
body survives on it as a transient Python attribute and is serialized in
this one response (it is never persisted). -/
def update_task_endpoint (token_sub user_id task_id : String)
    (task_data : TaskUpdate) (db : DB) (now : Nat) : ApiResult × DB :=
  if token_sub ≠ user_id then
    (.httpError 401 "Unauthorized to update this task", db)
  else
    match pyUUID? user_id with
    | none => (.httpError 400 "Invalid user or task ID format", db)
    | some user_uuid =>
        match pyUUID? task_id with
        | none => (.httpError 400 "Invalid user or task ID format", db)
        | some task_uuid =>
            let r := update_task db user_uuid task_uuid task_data now
            match r.1 with
            | none => (.httpError 404 "Task not found", db)
            | some t =>
                (.taskOk { taskToSchema t with tags := task_data.tags.getD [] }, r.2)

/-- `DELETE /{user_id}/tasks/{task_id}` (`delete_task` endpoint). -/
def delete_task_endpoint (token_sub user_id task_id : String) (db : DB) :
    ApiResult × DB :=
  if token_sub ≠ user_id then
    (.httpError 401 "Unauthorized to delete this task", db)
  else
    match pyUUID? user_id with
    | none => (.httpError 400 "Invalid user or task ID format", db)
    | some user_uuid =>
        match pyUUID? task_id with
        | none => (.httpError 400 "Invalid user or task ID format", db)
        | some task_uuid =>
            let r := delete_task db user_uuid task_uuid
            if r.1 then (.msgOk "Task deleted successfully", r.2)
            else (.httpError 404 "Task not found", db)

/-- `PATCH /{user_id}/tasks/{task_id}/complete` (`toggle_task_completion`
endpoint); `completed` is a required boolean query parameter. -/
def toggle_task_completion_endpoint (token_sub user_id task_id : String)
    (completed : Bool) (db : DB) (now : Nat) : ApiResult × DB :=
  if token_sub ≠ user_id then
    (.httpError 401 "Unauthorized to update this task", db)
  else
    match pyUUID? user_id with
    | none => (.httpError 400 "Invalid user or task ID format", db)
    | some user_uuid =>
        match pyUUID? task_id with
        | none => (.httpError 400 "Invalid user or task ID format", db)
        | some task_uuid =>
            let r := toggle_task_completion db user_uuid task_uuid completed now
            match r.1 with
            | none => (.httpError 404 "Task not found", db)
            | some t => (.taskOk (taskToSchema t), r.2)

/-- `POST /auth/register` (`register_user`): reject when a user with the
requested email exists (400 Conflict), otherwise hash the password, insert
and return the serialized user.  `new_id` stands for the `uuid.uuid4` column
default and `salt` for the fresh passlib salt. -/
def register_user (db : DB) (email : String) (name : Option String)
    (password : String) (salt new_id now : Nat) : ApiResult × DB :=
  match db.users.find? (fun u => u.email == email) with
  | some _ => (.httpError 400 "A user with this email already exists", db)
  | none =>
      let u : UserRow :=
        { id := new_id
          email := email
          name := name
          hashed_password := get_password_hash salt password
          created_at := now
          updated_at := now }
      (.userOk (userToSchema u), { db with users := db.users ++ [u] })

/-! ## Helper lemmas -/

/-- `find?` returns the unique element satisfying the test. -/
theorem find?_eq_some_of_unique {α : Type} (p : α → Bool) (l : List α) (t : α)
    (ht : t ∈ l) (hp : p t = true) (huniq : ∀ x ∈ l, p x = true → x = t) :
    l.find? p = some t := by
  induction l with
  | nil => cases ht
  | cons a l ih =>
      by_cases ha : p a = true
      · have : a = t := huniq a (List.mem_cons_self a l) ha
        simp [List.find?, this, hp]
      · have hat : a ≠ t := fun h => ha (h ▸ hp)
        have ht' : t ∈ l := by
          rcases List.mem_cons.mp ht with h | h
          · exact absurd h.symm hat
          · exact h
        have : l.find? p = some t :=
          ih ht' (fun x hx hpx => huniq x (List.mem_cons_of_mem a hx) hpx)
        simp [List.find?, ha, this]

/-- Under primary-key integrity, two stored tasks with the same id coincide. -/
theorem eq_of_mem_of_id_eq {db : DB} (h : db.tasksIdNodup)
    {x y : TaskRow} (hx : x ∈ db.tasks) (hy : y ∈ db.tasks)
    (hid : x.id = y.id) : x = y :=
  List.inj_on_of_nodup_map h hx hy hid

/-- A task of another owner is invisible to the owner-scoped fetch. -/
theorem get_task_by_id_other_owner {db : DB} (hwf : db.tasksIdNodup)
    {T : TaskRow} (hT : T ∈ db.tasks) {B : Nat} (hB : B ≠ T.user_id) :
    get_task_by_id db B T.id = none := by
  rw [get_task_by_id, List.find?_eq_none]
  intro x hx
  simp only [Bool.and_eq_true, beq_iff_eq, not_and]
  intro hxB hxid
  exact absurd (congrArg TaskRow.user_id (eq_of_mem_of_id_eq hwf hx hT hxid)) (hxB ▸ hB)

/-- An id stored for no task at all is invisible to the fetch. -/
theorem get_task_by_id_absent {db : DB} {tid : Nat}
    (h : ∀ t ∈ db.tasks, t.id ≠ tid) (B : Nat) :
    get_task_by_id db B tid = none := by
  rw [get_task_by_id, List.find?_eq_none]
  intro x hx
  simp only [Bool.and_eq_true, beq_iff_eq, not_and]
  intro _ hxid
  exact absurd hxid (h x hx)

/-! ## Claims -/

/-- C1: for distinct owners `A ≠ B` and a task `T` owned by `A`, the
repository operations `get_task_by_id(B, T.id)`, `update_task`,
`delete_task` and `toggle_task_completion` each return the same not-found
result (`None`/`False`) as for an id that exists for no task at all, and
none of them changes any stored task. -/
theorem owner_scoped_not_found
    (db : DB) (hwf : db.tasksIdNodup)
    (T : TaskRow) (hT : T ∈ db.tasks) (A B : Nat)
    (hA : T.user_id = A) (hB : B ≠ A)
    (u : TaskUpdate) (c : Bool) (now ghost : Nat)
    (hghost : ∀ t ∈ db.tasks, t.id ≠ ghost) :
    (get_task_by_id db B T.id = none ∧ get_task_by_id db B ghost = none)
    ∧ (update_task db B T.id u now = (none, db)
        ∧ update_task db B ghost u now = (none, db))
    ∧ (delete_task db B T.id = (false, db)
        ∧ delete_task db B ghost = (false, db))
    ∧ (toggle_task_completion db B T.id c now = (none, db)
        ∧ toggle_task_completion db B ghost c now = (none, db)) := by
  have h1 : get_task_by_id db B T.id = none :=
    get_task_by_id_other_owner hwf hT (hA ▸ hB)
  have h2 : get_task_by_id db B ghost = none := get_task_by_id_absent hghost B
  refine ⟨⟨h1, h2⟩, ⟨?_, ?_⟩, ⟨?_, ?_⟩, ?_, ?_⟩ <;>
    simp [update_task, delete_task, toggle_task_completion, h1, h2]

/-- Witness for C1 at a concrete two-owner store. -/
theorem owner_scoped_not_found_witness :
    get_task_by_id
      ⟨[], [⟨10, 1, "t", none, false, some "medium", 0, 0⟩]⟩ 2 10 = none
    ∧ delete_task
      ⟨[], [⟨10, 1, "t", none, false, some "medium", 0, 0⟩]⟩ 2 10
      = (false, ⟨[], [⟨10, 1, "t", none, false, some "medium", 0, 0⟩]⟩) := by
  have h := owner_scoped_not_found
    ⟨[], [⟨10, 1, "t", none, false, some "medium", 0, 0⟩]⟩
    (by unfold DB.tasksIdNodup; decide)
    ⟨10, 1, "t", none, false, some "medium", 0, 0⟩ (by decide) 1 2
    rfl (by decide) ⟨none, none, none, none, none⟩ true 5 99 (by decide)
  exact ⟨h.1.1, h.2.2.1.1⟩

/-- C2: on every task endpoint, a valid token whose subject differs from the
path `owner_id` yields the 401 authorization error with the store untouched,
before any repository access: the response is the same for every database
state, whether or not the task id exists. -/
theorem authorization_checked_before_repository
    (token_sub user_id task_id : String) (h : token_sub ≠ user_id)
    (st pr : Option String) (c : TaskCreate) (u : TaskUpdate) (cb : Bool)
    (db : DB) (new_id now : Nat) :
    get_tasks_endpoint token_sub user_id st pr db
      = (.httpError 401 "Unauthorized access to these tasks", db)
    ∧ create_task_endpoint token_sub user_id c db new_id now
      = (.httpError 401 "Unauthorized to create tasks for this user", db)
    ∧ get_task_endpoint token_sub user_id task_id db
      = (.httpError 401 "Unauthorized access to this task", db)
    ∧ update_task_endpoint token_sub user_id task_id u db now
      = (.httpError 401 "Unauthorized to update this task", db)
    ∧ delete_task_endpoint token_sub user_id task_id db
      = (.httpError 401 "Unauthorized to delete this task", db)
    ∧ toggle_task_completion_endpoint token_sub user_id task_id cb db now
      = (.httpError 401 "Unauthorized to update this task", db) :=
  ⟨by simp [get_tasks_endpoint, h], by simp [create_task_endpoint, h],
   by simp [get_task_endpoint, h], by simp [update_task_endpoint, h],
   by simp [delete_task_endpoint, h], by simp [toggle_task_completion_endpoint, h]⟩

/-- Witness for C2: user B's token against user A's path, on a store where
A's task exists — 401, not 404 or 200. -/
theorem authorization_checked_before_repository_witness :
    get_task_endpoint "22222222-2222-2222-2222-222222222222"
      "11111111-1111-1111-1111-111111111111"
      "33333333-3333-3333-3333-333333333333"
      ⟨[], [⟨0x33333333333333333333333333333333,
             0x11111111111111111111111111111111,
             "t", none, false, some "medium", 0, 0⟩]⟩
    = (.httpError 401 "Unauthorized access to this task",
       ⟨[], [⟨0x33333333333333333333333333333333,
              0x11111111111111111111111111111111,
              "t", none, false, some "medium", 0, 0⟩]⟩) :=
  (authorization_checked_before_repository
    "22222222-2222-2222-2222-222222222222"
    "11111111-1111-1111-1111-111111111111"
    "33333333-3333-3333-3333-333333333333" (by decide)
    none none ⟨"t", none, false, some "medium", none⟩
    ⟨none, none, none, none, none⟩ true _ 7 8).2.2.1

/-- C3 counterexample: an authenticated request with a malformed path
`owner_id` and a token subject that differs from it is answered 401, not
with the 400 validation error the claim requires for every malformed
identifier. -/
theorem malformed_id_not_always_400 :
    pyUUID? "not-a-uuid" = none
    ∧ (get_task_endpoint "11111111-1111-1111-1111-111111111111" "not-a-uuid"
        "33333333-3333-3333-3333-333333333333" ⟨[], []⟩).1
      = .httpError 401 "Unauthorized access to this task"
    ∧ (get_task_endpoint "11111111-1111-1111-1111-111111111111" "not-a-uuid"
        "33333333-3333-3333-3333-333333333333" ⟨[], []⟩).1
      ≠ .httpError 400 "Invalid user or task ID format"
    ∧ (get_task_endpoint "11111111-1111-1111-1111-111111111111" "not-a-uuid"
        "33333333-3333-3333-3333-333333333333" ⟨[], []⟩).1
      ≠ .httpError 400 "Invalid user ID format" := by
  refine ⟨by decide, by decide, by decide, by decide⟩

/-- C3 amended: once the authorization check has passed (token subject equal
to the path owner id, the comparison the endpoints make first), a path
identifier rejected by the UUID parser is answered with the 400 validation
error and the repository is never invoked (state unchanged, same response
for every database state); when the authorization check fails, the 401 takes
precedence over the validation error (shown by `malformed_id_not_always_400`). -/
theorem malformed_id_400_after_authorization
    (token_sub user_id task_id : String) (hmatch : token_sub = user_id)
    (st pr : Option String) (c : TaskCreate) (u : TaskUpdate) (cb : Bool)
    (db : DB) (new_id now : Nat) :
    (pyUUID? user_id = none →
      get_tasks_endpoint token_sub user_id st pr db
        = (.httpError 400 "Invalid user ID format", db)
      ∧ create_task_endpoint token_sub user_id c db new_id now
        = (.httpError 400 "Invalid user ID format", db)
      ∧ get_task_endpoint token_sub user_id task_id db
        = (.httpError 400 "Invalid user or task ID format", db)
      ∧ update_task_endpoint token_sub user_id task_id u db now
        = (.httpError 400 "Invalid user or task ID format", db)
      ∧ delete_task_endpoint token_sub user_id task_id db
        = (.httpError 400 "Invalid user or task ID format", db)
      ∧ toggle_task_completion_endpoint token_sub user_id task_id cb db now
        = (.httpError 400 "Invalid user or task ID format", db))
    ∧ (pyUUID? task_id = none →
      get_task_endpoint token_sub user_id task_id db
        = (.httpError 400 "Invalid user or task ID format", db)
      ∧ update_task_endpoint token_sub user_id task_id u db now
        = (.httpError 400 "Invalid user or task ID format", db)
      ∧ delete_task_endpoint token_sub user_id task_id db
        = (.httpError 400 "Invalid user or task ID format", db)
      ∧ toggle_task_completion_endpoint token_sub user_id task_id cb db now
        = (.httpError 400 "Invalid user or task ID format", db)) := by
  subst hmatch
  constructor
  · intro hbad
    refine ⟨?_, ?_, ?_, ?_, ?_, ?_⟩ <;>
      simp [get_tasks_endpoint, create_task_endpoint, get_task_endpoint,
        update_task_endpoint, delete_task_endpoint,
        toggle_task_completion_endpoint, hbad]
  · intro hbad
    have hne : ¬ (token_sub ≠ token_sub) := fun h => h rfl
    refine ⟨?_, ?_, ?_, ?_⟩ <;>
      (simp only [get_task_endpoint, update_task_endpoint,
        delete_task_endpoint, toggle_task_completion_endpoint]
       rw [if_neg hne]
       cases hu : pyUUID? token_sub <;> simp [hbad])

/-- Witness for C3 amended: both hypothesis combinations at concrete inputs —
a malformed owner id with a matching token, and a well-formed owner id with a
malformed task id. -/
theorem malformed_id_400_after_authorization_witness :
    get_task_endpoint "not-a-uuid" "not-a-uuid" "x" ⟨[], []⟩
      = (.httpError 400 "Invalid user or task ID format", ⟨[], []⟩)
    ∧ delete_task_endpoint "11111111-1111-1111-1111-111111111111"
        "11111111-1111-1111-1111-111111111111" "zz" ⟨[], []⟩
      = (.httpError 400 "Invalid user or task ID format", ⟨[], []⟩) := by
  constructor
  · exact ((malformed_id_400_after_authorization "not-a-uuid" "not-a-uuid" "x"
      rfl none none ⟨"t", none, false, some "medium", none⟩
      ⟨none, none, none, none, none⟩ true ⟨[], []⟩ 0 0).1 (by decide)).2.2.1
  · exact ((malformed_id_400_after_authorization
      "11111111-1111-1111-1111-111111111111"
      "11111111-1111-1111-1111-111111111111" "zz"
      rfl none none ⟨"t", none, false, some "medium", none⟩
      ⟨none, none, none, none, none⟩ true ⟨[], []⟩ 0 0).2 (by decide)).2.2.1

/-- C4: a token minted by `create_access_token` for subject `S`, verified
before its expiration timestamp, yields claims whose subject is `S`; verified
at or after expiration it yields the invalid sentinel `None`, as do a token
whose signature does not match and an undecodable token — the caller sees one
uniform failure; and with no delta the expiration defaults to 7 days after
issuance. -/
theorem access_token_lifecycle
    (secret S email : String) (delta : Option Nat) (now now' : Nat)
    (p : JwtPayload) (sig : Nat) (raw : String) :
    (now' < now + delta.getD (7 * 24 * 60 * 60) →
      verify_token (create_access_token ⟨S, email⟩ delta now secret) now' secret
        = some ⟨S, email, now + delta.getD (7 * 24 * 60 * 60)⟩)
    ∧ (now + delta.getD (7 * 24 * 60 * 60) ≤ now' →
      verify_token (create_access_token ⟨S, email⟩ delta now secret) now' secret
        = none)
    ∧ (sig ≠ jwtSign secret p →
      verify_token (.signed p sig) now' secret = none)
    ∧ verify_token (.garbage raw) now' secret = none
    ∧ create_access_token ⟨S, email⟩ none now secret
        = .signed ⟨S, email, now + 7 * 24 * 60 * 60⟩
            (jwtSign secret ⟨S, email, now + 7 * 24 * 60 * 60⟩) := by
  refine ⟨?_, ?_, ?_, ?_, ?_⟩
  · intro hlt
    cases delta <;> simp_all [create_access_token, verify_token]
  · intro hge
    cases delta <;> simp_all [create_access_token, verify_token]
  · intro hsig
    simp [verify_token, hsig]
  · rfl
  · rfl

/-- Witness for C4: a concrete token verified before expiry, after expiry,
and with a corrupted signature. -/
theorem access_token_lifecycle_witness :
    verify_token (create_access_token ⟨"u1", "a@b"⟩ (some 100) 0 "secret") 99 "secret"
      = some ⟨"u1", "a@b", 100⟩
    ∧ verify_token (create_access_token ⟨"u1", "a@b"⟩ (some 100) 0 "secret") 100 "secret"
      = none
    ∧ verify_token (.signed ⟨"u1", "a@b", 100⟩ 0) 99 "secret" = none := by
  have h := access_token_lifecycle "secret" "u1" "a@b" (some 100) 0 99
    ⟨"u1", "a@b", 100⟩ 0 "?"
  have h' := access_token_lifecycle "secret" "u1" "a@b" (some 100) 0 100
    ⟨"u1", "a@b", 100⟩ 0 "?"
  exact ⟨h.1 (by decide), h'.2.1 (by decide), h.2.2.1 (by decide)⟩

/-- C5: verifying a password against its own hash succeeds, and verifying
any different password against that hash fails. -/
theorem password_hash_verify_roundtrip (salt : Nat) (p p' : String)
    (h : p' ≠ p) :
    verify_password p (get_password_hash salt p) = true
    ∧ verify_password p' (get_password_hash salt p) = false := by
  constructor
  · simp [verify_password, get_password_hash]
  · simp only [verify_password, get_password_hash, kdfDigest,
      beq_eq_false_iff_ne, ne_eq]
    intro hEq
    have hd := congrArg String.data hEq
    rw [String.data_append, String.data_append] at hd
    exact h (String.ext (List.append_cancel_left hd)).symm

/-- Witness for C5 at a concrete salt and password pair. -/
theorem password_hash_verify_roundtrip_witness :
    verify_password "secret1" (get_password_hash 42 "secret1") = true
    ∧ verify_password "secret2" (get_password_hash 42 "secret1") = false :=
  password_hash_verify_roundtrip 42 "secret1" "secret2" (by decide)

/-- C6 counterexample: with an empty partial payload `update_task` succeeds
(the task exists for this owner) yet `updated_at` does not advance — no
attribute is assigned, the session stays clean and the column's `onupdate`
clock never fires — refuting "updated_at advances on success" for every
payload. -/
theorem update_empty_payload_stale_updated_at :
    (update_task ⟨[], [⟨10, 1, "t", none, false, some "medium", 5, 5⟩]⟩ 1 10
        ⟨none, none, none, none, none⟩ 100).1
      = some ⟨10, 1, "t", none, false, some "medium", 5, 5⟩
    ∧ ((update_task ⟨[], [⟨10, 1, "t", none, false, some "medium", 5, 5⟩]⟩ 1 10
        ⟨none, none, none, none, none⟩ 100).1.map (·.updated_at))
      ≠ some 100 := by
  exact ⟨by decide, by decide⟩

/-- C6 amended: for an existing task of the owner, `update_task` changes
exactly the fields explicitly provided in the payload (unprovided fields
retain their prior values, and `id`, `user_id`, `created_at` are untouched);
`updated_at` refreshes to the current clock whenever some provided field
differs from its stored value, and is left untouched otherwise — in
particular under the empty payload; every other stored task is unchanged. -/
theorem update_task_partial_semantics
    (db : DB) (hwf : db.tasksIdNodup) (t : TaskRow) (ht : t ∈ db.tasks)
    (uid : Nat) (hu : t.user_id = uid) (u : TaskUpdate) (now : Nat) :
    ∃ t', update_task db uid t.id u now
        = (some t',
           { db with tasks := db.tasks.map (fun x => if x.id == t.id then t' else x) })
      ∧ (∀ v, u.title = some v → t'.title = v)
      ∧ (u.title = none → t'.title = t.title)
      ∧ (∀ v, u.description = some v → t'.description = some v)
      ∧ (u.description = none → t'.description = t.description)
      ∧ (∀ v, u.completed = some v → t'.completed = v)
      ∧ (u.completed = none → t'.completed = t.completed)
      ∧ (∀ v, u.priority = some v → t'.priority = some v)
      ∧ (u.priority = none → t'.priority = t.priority)
      ∧ t'.id = t.id ∧ t'.user_id = t.user_id ∧ t'.created_at = t.created_at
      ∧ (taskUpdateDirty t u = true → t'.updated_at = now)
      ∧ (taskUpdateDirty t u = false → t'.updated_at = t.updated_at)
      ∧ (∀ x ∈ db.tasks, x.id ≠ t.id →
          x ∈ db.tasks.map (fun y => if y.id == t.id then t' else y)) := by
  have hget : get_task_by_id db uid t.id = some t := by
    apply find?_eq_some_of_unique _ _ _ ht
    · simp [hu]
    · intro x hx hpx
      simp only [Bool.and_eq_true, beq_iff_eq] at hpx
      exact eq_of_mem_of_id_eq hwf hx ht hpx.2
  refine ⟨if taskUpdateDirty t u then { applyTaskUpdate t u with updated_at := now }
          else applyTaskUpdate t u, ?_, ?_, ?_, ?_, ?_, ?_, ?_, ?_, ?_, ?_, ?_,
          ?_, ?_, ?_, ?_⟩
  · simp only [update_task, hget]
  · intro v hv
    by_cases hd : taskUpdateDirty t u <;> simp [hd, applyTaskUpdate, hv]
  · intro hv
    by_cases hd : taskUpdateDirty t u <;> simp [hd, applyTaskUpdate, hv]
  · intro v hv
    by_cases hd : taskUpdateDirty t u <;> simp [hd, applyTaskUpdate, hv]
  · intro hv
    by_cases hd : taskUpdateDirty t u <;> simp [hd, applyTaskUpdate, hv]
  · intro v hv
    by_cases hd : taskUpdateDirty t u <;> simp [hd, applyTaskUpdate, hv]
  · intro hv
    by_cases hd : taskUpdateDirty t u <;> simp [hd, applyTaskUpdate, hv]
  · intro v hv
    by_cases hd : taskUpdateDirty t u <;> simp [hd, applyTaskUpdate, hv]
  · intro hv
    by_cases hd : taskUpdateDirty t u <;> simp [hd, applyTaskUpdate, hv]
  · by_cases hd : taskUpdateDirty t u <;> simp [hd, applyTaskUpdate]
  · by_cases hd : taskUpdateDirty t u <;> simp [hd, applyTaskUpdate]
  · by_cases hd : taskUpdateDirty t u <;> simp [hd, applyTaskUpdate]
  · intro hd; simp [hd]
  · intro hd; simp [hd, applyTaskUpdate]
  · intro x hx hxid
    refine List.mem_map.mpr ⟨x, hx, ?_⟩
    simp [hxid]

/-- Witness for C6 amended: updating only the title of a stored task. -/
theorem update_task_partial_semantics_witness :
    ∃ t', (update_task ⟨[], [⟨10, 1, "t", none, false, some "medium", 5, 5⟩]⟩
        1 10 ⟨some "x", none, none, none, none⟩ 100).1 = some t'
      ∧ t'.title = "x" ∧ t'.completed = false ∧ t'.priority = some "medium"
      ∧ t'.updated_at = 100 := by
  obtain ⟨t', heq, hta, _, _, hdb, _, hcb, _, hpb, _, _, _, hdirty, _, _⟩ :=
    update_task_partial_semantics
      ⟨[], [⟨10, 1, "t", none, false, some "medium", 5, 5⟩]⟩
      (by unfold DB.tasksIdNodup; decide)
      ⟨10, 1, "t", none, false, some "medium", 5, 5⟩ (by decide) 1 rfl
      ⟨some "x", none, none, none, none⟩ 100
  exact ⟨t', by rw [heq], hta "x" rfl, hcb rfl, hpb rfl, hdirty (by decide)⟩

/-- C7: `get_tasks_by_user` with `status = "completed"` returns exactly the
owner's tasks with `completed == true`; with both a status and a priority
filter the result is exactly the intersection (membership-wise) of the two
single-filter results; omitting both filters returns all of the owner's
tasks. -/
theorem list_filter_semantics (db : DB) (uid : Nat) :
    get_tasks_by_user db uid (some "completed") none
      = db.tasks.filter (fun t => t.user_id == uid && t.completed)
    ∧ (∀ st pr t, t ∈ get_tasks_by_user db uid (some st) (some pr)
        ↔ (t ∈ get_tasks_by_user db uid (some st) none
           ∧ t ∈ get_tasks_by_user db uid none (some pr)))
    ∧ get_tasks_by_user db uid none none
      = db.tasks.filter (fun t => t.user_id == uid) := by
  refine ⟨?_, ?_, rfl⟩
  · simp only [get_tasks_by_user, List.filter_filter]
    exact List.filter_congr (fun x _ => by rw [Bool.and_comm])
  · intro st pr t
    simp only [get_tasks_by_user]
    split_ifs <;> simp [List.mem_filter] <;> tauto

/-- C10: a status argument other than `"completed"` and `"incomplete"` —
the empty string included — is silently ignored: the result is the same as
with no status filter, the priority filter alone still applying. -/
theorem status_filter_unrecognized_ignored (db : DB) (uid : Nat)
    (st : String) (pr : Option String)
    (h1 : st ≠ "completed") (h2 : st ≠ "incomplete") :
    get_tasks_by_user db uid (some st) pr
      = get_tasks_by_user db uid none pr := by
  simp only [get_tasks_by_user]
  split_ifs <;> simp_all

/-- Witness for C10 with the unrecognized status `"all"` on a store holding
one completed and one incomplete task. -/
theorem status_filter_unrecognized_ignored_witness :
    get_tasks_by_user
      ⟨[], [⟨10, 1, "a", none, true, some "low", 0, 0⟩,
            ⟨11, 1, "b", none, false, some "high", 0, 0⟩]⟩ 1 (some "all") none
    = get_tasks_by_user
      ⟨[], [⟨10, 1, "a", none, true, some "low", 0, 0⟩,
            ⟨11, 1, "b", none, false, some "high", 0, 0⟩]⟩ 1 none none :=
  status_filter_unrecognized_ignored _ 1 "all" none (by decide) (by decide)

/-- C8: registrations with pairwise-distinct fresh emails each yield a user
with a distinct identifier; registering an email that already has a user
always fails with the 400 Conflict error and leaves the store unchanged; the
one-user-per-email invariant is preserved by every registration. -/
theorem registration_email_uniqueness
    (db : DB) (e1 e2 : String) (n1 n2 : Option String) (p1 p2 : String)
    (s1 s2 id1 id2 t1 t2 : Nat)
    (h1 : ∀ u ∈ db.users, u.email ≠ e1)
    (h2 : ∀ u ∈ db.users, u.email ≠ e2)
    (hne : e2 ≠ e1)
    (hid2 : ∀ u ∈ (register_user db e1 n1 p1 s1 id1 t1).2.users, u.id ≠ id2) :
    (register_user db e1 n1 p1 s1 id1 t1).1 = .userOk ⟨e1, n1, id1, t1, t1⟩
    ∧ (register_user (register_user db e1 n1 p1 s1 id1 t1).2
        e2 n2 p2 s2 id2 t2).1 = .userOk ⟨e2, n2, id2, t2, t2⟩
    ∧ id1 ≠ id2
    ∧ (∀ e n p s i t, (∃ u ∈ db.users, u.email = e) →
        register_user db e n p s i t
          = (.httpError 400 "A user with this email already exists", db))
    ∧ register_user (register_user db e1 n1 p1 s1 id1 t1).2 e1 n2 p2 s2 id2 t2
      = (.httpError 400 "A user with this email already exists",
         (register_user db e1 n1 p1 s1 id1 t1).2)
    ∧ (db.emailsNodup → ∀ e n p s i t,
        (register_user db e n p s i t).2.emailsNodup) := by
  have hfind1 : db.users.find? (fun u => u.email == e1) = none := by
    rw [List.find?_eq_none]; intro u hu; simpa using h1 u hu
  have hreg1 : register_user db e1 n1 p1 s1 id1 t1
      = (.userOk ⟨e1, n1, id1, t1, t1⟩,
         ⟨db.users ++ [⟨id1, e1, n1, get_password_hash s1 p1, t1, t1⟩],
          db.tasks⟩) := by
    simp [register_user, hfind1, userToSchema]
  have hfind2 : (db.users
      ++ [(⟨id1, e1, n1, get_password_hash s1 p1, t1, t1⟩ : UserRow)]).find?
      (fun u => u.email == e2) = none := by
    rw [List.find?_eq_none]
    intro u hu
    rcases List.mem_append.mp hu with hu | hu
    · simpa using h2 u hu
    · simp at hu
      simp [hu, Ne.symm hne]
  have hfind1' : (db.users
      ++ [(⟨id1, e1, n1, get_password_hash s1 p1, t1, t1⟩ : UserRow)]).find?
      (fun u => u.email == e1)
      = some ⟨id1, e1, n1, get_password_hash s1 p1, t1, t1⟩ := by
    rw [List.find?_append, hfind1]
    simp [List.find?]
  refine ⟨?_, ?_, ?_, ?_, ?_, ?_⟩
  · simp [hreg1]
  · rw [hreg1]
    simp [register_user, hfind2, userToSchema]
  · have hm : (⟨id1, e1, n1, get_password_hash s1 p1, t1, t1⟩ : UserRow)
        ∈ (register_user db e1 n1 p1 s1 id1 t1).2.users := by
      rw [hreg1]; exact List.mem_append_right _ (List.mem_singleton_self _)
    exact hid2 _ hm
  · intro e n p s i t ⟨u, hu, he⟩
    have : db.users.find? (fun v => v.email == e) ≠ none := by
      intro hnone
      exact absurd he (by simpa using List.find?_eq_none.mp hnone u hu)
    cases hf : db.users.find? (fun v => v.email == e) with
    | none => exact absurd hf this
    | some v => simp [register_user, hf]
  · rw [hreg1]
    simp [register_user, hfind1']
  · intro hinv e n p s i t
    cases hf : db.users.find? (fun u => u.email == e) with
    | some v => simpa [register_user, hf] using hinv
    | none =>
        have hnotin : ∀ u ∈ db.users, u.email ≠ e := by
          intro u hu
          simpa using List.find?_eq_none.mp hf u hu
        simp only [register_user, hf, DB.emailsNodup, List.map_append,
          List.map_cons, List.map_nil]
        rw [List.nodup_append]
        refine ⟨hinv, List.nodup_singleton _, ?_⟩
        intro x hx hx'
        simp at hx'
        rcases List.mem_map.mp hx with ⟨u, hu, hux⟩
        exact hnotin u hu (hx' ▸ hux)

/-- Witness for C8: two registrations with distinct emails on an empty
store, then a duplicate registration of the first email. -/
theorem registration_email_uniqueness_witness :
    (register_user ⟨[], []⟩ "a@x.com" none "secret1" 1 5 10).1
      = .userOk ⟨"a@x.com", none, 5, 10, 10⟩
    ∧ (register_user (register_user ⟨[], []⟩ "a@x.com" none "secret1" 1 5 10).2
        "b@x.com" none "secret2" 2 6 11).1
      = .userOk ⟨"b@x.com", none, 6, 11, 11⟩
    ∧ (5 : Nat) ≠ 6
    ∧ register_user (register_user ⟨[], []⟩ "a@x.com" none "secret1" 1 5 10).2
        "a@x.com" none "secret2" 2 6 11
      = (.httpError 400 "A user with this email already exists",
         (register_user ⟨[], []⟩ "a@x.com" none "secret1" 1 5 10).2) := by
  have h := registration_email_uniqueness ⟨[], []⟩ "a@x.com" "b@x.com"
    none none "secret1" "secret2" 1 2 5 6 10 11
    (by intro u hu; cases hu) (by intro u hu; cases hu) (by decide)
    (by decide)
  exact ⟨h.1, h.2.1, h.2.2.1, h.2.2.2.2.1⟩

/-- C9: a `tags` value carried by a create or update request is accepted by
the request schema but never persisted: the repository result is independent
of it, and the stored row — read back through the owner-scoped fetch —
serializes with the schema default `tags = []`. -/
theorem tags_accepted_not_persisted
    (db : DB) (uid new_id now tid : Nat) (c : TaskCreate) (u : TaskUpdate)
    (l l' : List String)
    (hfresh : ∀ t ∈ db.tasks, t.id ≠ new_id) :
    create_task db uid { c with tags := some l } new_id now
      = create_task db uid { c with tags := none } new_id now
    ∧ update_task db uid tid { u with tags := some l' } now
      = update_task db uid tid { u with tags := none } now
    ∧ get_task_by_id (create_task db uid c new_id now).2 uid new_id
      = some (create_task db uid c new_id now).1
    ∧ (taskToSchema (create_task db uid c new_id now).1).tags = [] := by
  refine ⟨rfl, ?_, ?_, rfl⟩
  · cases hg : get_task_by_id db uid tid <;>
      simp [update_task, hg, applyTaskUpdate, taskUpdateDirty]
  · apply find?_eq_some_of_unique
    · simp [create_task]
    · simp [create_task]
    · intro x hx hpx
      simp only [Bool.and_eq_true, beq_iff_eq] at hpx
      simp only [create_task] at hx
      rcases List.mem_append.mp hx with hx | hx
      · exact absurd hpx.2 (hfresh x hx)
      · simpa using hx

/-- Witness for C9: creating a task whose request carries two tags, then
reading it back — the serialized tags are the schema default `[]`. -/
theorem tags_accepted_not_persisted_witness :
    create_task ⟨[], []⟩ 1
        ⟨"buy milk", none, false, some "low", some ["home", "errand"]⟩ 10 0
      = create_task ⟨[], []⟩ 1 ⟨"buy milk", none, false, some "low", none⟩ 10 0
    ∧ (taskToSchema (create_task ⟨[], []⟩ 1
        ⟨"buy milk", none, false, some "low", some ["home", "errand"]⟩ 10 0).1).tags
      = [] := by
  have h := tags_accepted_not_persisted ⟨[], []⟩ 1 10 0 7
    ⟨"buy milk", none, false, some "low", some ["home", "errand"]⟩
    ⟨none, none, none, none, none⟩ ["home", "errand"] []
    (by intro t ht; cases ht)
  exact ⟨h.1, h.2.2.2⟩
